import Mathlib

/-!
The auto-refreshing read lease (`lease/auto_refreshing_read_lease.go`)

A shallow embedding of the Go file and a set of theorems about it.

Conventions of the embedding.

* A Go call either returns its results or panics; `Outcome` records which.
  The heap survives a panic, so every method returns the lease and the world
  next to its outcome.
* `int64` and `int` values are `Int`; the file does no arithmetic on them.
* A Go `error` is identified with its message (what `%v` prints); the nilable
  interface value is `Option GoError`.
* A byte slice `p` is the list of its bytes; a call that may write into the
  slice returns the slice's contents after the call.
* The interfaces `ReadLease`, `ReadWriteLease` and `FileLeaser` and the
  supplier type are declared outside this file: their values are the type
  parameters `RL`, `RWL`, `FL`, `F`, and everything they own (file contents,
  cursors, the leaser's bookkeeping) is the type parameter `W`.
  `ReadWriteLease.Read` is the parameter `rd`.
* The calls a method makes are appended to `World.calls`, in order, the
  mutex operations included; `sync.Mutex` has no other sequential effect.
* `Read` takes the two helper methods `getContents` and `saveContents` as
  arguments `gc` and `sc`. The file's own helpers are the definitions
  `getContents` and `saveContents` below (both are `panic("TODO")`), and the
  method of the file is `Read getContents saveContents`. Theorems stated for
  arbitrary `gc` and `sc` hold for every body these helpers may be given, the
  two bodies of the file included.
-/

namespace Lease

/-- How a Go call ends: it returns its results, or it panics with a value. -/
inductive Outcome (α : Type) where
  | returned (a : α)
  | panicked (msg : String)
  deriving DecidableEq, Repr

/-- A non-nil Go `error`, identified with its message. -/
abbrev GoError := String

/-- One call made by a method of the lease, as recorded in `World.calls`. -/
inductive Call (RWL : Type) where
  | muLock
  | muUnlock
  | getContents
  | saveContents (rwl : RWL)
  | rwlRead (rwl : RWL) (p : List Nat)
  deriving DecidableEq, Repr

/-- Everything outside the lease struct: the collaborators' state `ext` and
the calls made so far. -/
structure World (W RWL : Type) where
  ext : W
  calls : List (Call RWL)
  deriving DecidableEq, Repr

/-- Append one call to the record. -/
def World.record {W RWL : Type} (w : World W RWL) (c : Call RWL) : World W RWL :=
  { w with calls := w.calls ++ [c] }

/-- Replace the collaborators' state, keeping the record of calls. -/
def World.withExt {W RWL : Type} (w : World W RWL) (e : W) : World W RWL :=
  { w with ext := e }

/-- The struct `autoRefreshingReadLease` (lines 45-69). `wrapped` is `none`
for the nil interface value. The mutex `mu` appears as `Call.muLock` and
`Call.muUnlock` in the record of calls. -/
structure autoRefreshingReadLease (FL F RL : Type) where
  size : Int
  leaser : FL
  f : F
  wrapped : Option RL
  deriving DecidableEq, Repr

/-- The results `(n, err)` of a read, with the contents of `p` after it. -/
structure ReadResult where
  buf : List Nat
  n : Int
  err : Option GoError
  deriving DecidableEq, Repr

/-- Behaviour of a `getContents` body: it sees the lease and acts on the
collaborators, and returns `(rwl, err)` or panics. -/
abbrev GetContents (FL F RL RWL W : Type) :=
  autoRefreshingReadLease FL F RL → W → Outcome (RWL × Option GoError) × W

/-- Behaviour of a `saveContents` body: it sees the lease and `rwl`, acts on
the collaborators and gives the new value of the mutable field `wrapped`; it
has no results, so it returns nothing or panics. -/
abbrev SaveContents (FL F RL RWL W : Type) :=
  autoRefreshingReadLease FL F RL → RWL → W → Outcome Unit × Option RL × W

/-- Behaviour of `ReadWriteLease.Read` (an interface method declared outside
this file). -/
abbrev RwlRead (RWL W : Type) :=
  RWL → List Nat → W → Outcome ReadResult × W

section Methods

variable {FL F RL RWL W : Type}

/-- Embeds `NewAutoRefreshingReadLease` (lines 32-43): builds the struct with the
three given fields; `wrapped` keeps its zero value nil. -/
def NewAutoRefreshingReadLease (fl : FL) (size : Int) (f : F) (w : World W RWL) :
    autoRefreshingReadLease FL F RL × World W RWL :=
  ({ leaser := fl, size := size, f := f, wrapped := none }, w)

/-- Embeds `getContents` (lines 80-83): `panic("TODO")`. -/
def getContents : GetContents FL F RL RWL W :=
  fun _ e => (.panicked "TODO", e)

/-- Embeds `saveContents` (lines 89-91): `panic("TODO")`. -/
def saveContents : SaveContents FL F RL RWL W :=
  fun rl _ e => (.panicked "TODO", rl.wrapped, e)

/-- Embeds `Read` (lines 97-119).

* `rl.mu.Lock()` and the deferred `rl.mu.Unlock()`, which runs on every exit.
* `rl.wrapped != nil`: `panic("TODO")`.
* `rwl, err := rl.getContents()`; with `err != nil` the named result `err`
  becomes `fmt.Errorf("getContents: %v", err)` and the method returns, `n`
  still zero, before `saveContents` is deferred.
* Otherwise `saveContents(rwl)` is deferred and `n, err = rwl.Read(p)` runs.
  The deferred call runs whether `rwl.Read` returned or panicked; a panic of
  the deferred call is the panic the caller sees. -/
def Read (gc : GetContents FL F RL RWL W) (sc : SaveContents FL F RL RWL W)
    (rd : RwlRead RWL W) (rl : autoRefreshingReadLease FL F RL) (p : List Nat)
    (w : World W RWL) :
    Outcome ReadResult × autoRefreshingReadLease FL F RL × World W RWL :=
  let w1 := w.record .muLock
  match rl.wrapped with
  | some _ => (.panicked "TODO", rl, w1.record .muUnlock)
  | none =>
    let w2 := w1.record .getContents
    match gc rl w2.ext with
    | (.panicked m, e) => (.panicked m, rl, (w2.withExt e).record .muUnlock)
    | (.returned (_, some err), e) =>
      (.returned ⟨p, 0, some ("getContents: " ++ err)⟩, rl,
        (w2.withExt e).record .muUnlock)
    | (.returned (rwl, none), e) =>
      let w3 := (w2.withExt e).record (.rwlRead rwl p)
      let r := rd rwl p w3.ext
      let w4 := (w3.withExt r.2).record (.saveContents rwl)
      let s := sc rl rwl w4.ext
      let w5 := (w4.withExt s.2.2).record .muUnlock
      let rl5 := { rl with wrapped := s.2.1 }
      match s.1 with
      | .panicked m => (.panicked m, rl5, w5)
      | .returned _ => (r.1, rl5, w5)

/-- Embeds `Seek` (lines 121-125): `panic("TODO")`. -/
def Seek (rl : autoRefreshingReadLease FL F RL) (_offset : Int) (_whence : Int)
    (w : World W RWL) :
    Outcome (Int × Option GoError) × autoRefreshingReadLease FL F RL × World W RWL :=
  (.panicked "TODO", rl, w)

/-- Embeds `ReadAt` (lines 127-129): `panic("TODO")`. -/
def ReadAt (rl : autoRefreshingReadLease FL F RL) (_p : List Nat) (_off : Int)
    (w : World W RWL) :
    Outcome ReadResult × autoRefreshingReadLease FL F RL × World W RWL :=
  (.panicked "TODO", rl, w)

/-- Embeds `Size` (lines 131-134): returns the field `size`. It takes no lock. -/
def Size (rl : autoRefreshingReadLease FL F RL) (w : World W RWL) :
    Outcome Int × autoRefreshingReadLease FL F RL × World W RWL :=
  (.returned rl.size, rl, w)

/-- Embeds `Revoked` (lines 136-138): `panic("TODO")`. -/
def Revoked (rl : autoRefreshingReadLease FL F RL) (w : World W RWL) :
    Outcome Bool × autoRefreshingReadLease FL F RL × World W RWL :=
  (.panicked "TODO", rl, w)

/-- Embeds `Upgrade` (lines 140-142): `panic("TODO")`. -/
def Upgrade (rl : autoRefreshingReadLease FL F RL) (w : World W RWL) :
    Outcome (RWL × Option GoError) × autoRefreshingReadLease FL F RL × World W RWL :=
  (.panicked "TODO", rl, w)

/-- Embeds `Revoke` (lines 144-146): `panic("TODO")`. -/
def Revoke (rl : autoRefreshingReadLease FL F RL) (w : World W RWL) :
    Outcome Unit × autoRefreshingReadLease FL F RL × World W RWL :=
  (.panicked "TODO", rl, w)

/-- A caller making one `Read` per buffer of `ps`, in order, going on after a
panic (a recovered one); gives the lease and the world at the end. -/
def readAll (gc : GetContents FL F RL RWL W) (sc : SaveContents FL F RL RWL W)
    (rd : RwlRead RWL W) :
    List (List Nat) → autoRefreshingReadLease FL F RL → World W RWL →
      autoRefreshingReadLease FL F RL × World W RWL
  | [], rl, w => (rl, w)
  | p :: ps, rl, w =>
    readAll gc sc rd ps (Read gc sc rd rl p w).2.1 (Read gc sc rd rl p w).2.2

end Methods

/-! ## Theorems -/

section Theorems

variable {FL F RL RWL W : Type}

/-- The method `Read` never assigns the field `size`. -/
theorem Read_size (gc : GetContents FL F RL RWL W) (sc : SaveContents FL F RL RWL W)
    (rd : RwlRead RWL W) (rl : autoRefreshingReadLease FL F RL) (p : List Nat)
    (w : World W RWL) : (Read gc sc rd rl p w).2.1.size = rl.size := by
  unfold Read
  cases hw : rl.wrapped with
  | some h => simp
  | none =>
    simp only
    split
    · rfl
    · rfl
    · split <;> rfl

/-- A sequence of `Read` calls leaves the field `size` as it was. -/
theorem readAll_size (gc : GetContents FL F RL RWL W) (sc : SaveContents FL F RL RWL W)
    (rd : RwlRead RWL W) (ps : List (List Nat)) :
    ∀ (rl : autoRefreshingReadLease FL F RL) (w : World W RWL),
      (readAll gc sc rd ps rl w).1.size = rl.size := by
  induction ps with
  | nil => intro rl w; rfl
  | cons p ps ih =>
    intro rl w
    simp only [readAll]
    rw [ih, Read_size]

/-- The helpers of the file never return: `getContents` and `saveContents`
panic with "TODO" on every input and leave the collaborators as they were, so
`getContents` yields neither a lease nor an error and `saveContents` stores
nothing. -/
theorem helpers_never_return (rl : autoRefreshingReadLease FL F RL) (rwl : RWL) (e : W) :
    (getContents rl e : Outcome (RWL × Option GoError) × W) = (.panicked "TODO", e) ∧
      (saveContents rl rwl e : Outcome Unit × Option RL × W) =
        (.panicked "TODO", rl.wrapped, e) :=
  ⟨rfl, rfl⟩

/-- With the helpers of the file, any sequence of `Read` calls on a lease
fresh from the constructor leaves the struct as the constructor built it; in
particular `wrapped` is never assigned and stays nil. -/
theorem readAll_fresh_lease (rd : RwlRead RWL W) (fl : FL) (s : Int) (f : F)
    (ps : List (List Nat)) :
    ∀ w w0 : World W RWL,
      (readAll getContents saveContents rd ps
          (NewAutoRefreshingReadLease fl s f w0 :
            autoRefreshingReadLease FL F RL × World W RWL).1 w).1 =
        (NewAutoRefreshingReadLease fl s f w0 :
          autoRefreshingReadLease FL F RL × World W RWL).1 := by
  induction ps with
  | nil => intro w w0; rfl
  | cons p ps ih =>
    intro w w0
    simp only [readAll]
    exact ih _ w0

/-- C5: a lease built by `NewAutoRefreshingReadLease(fl, s, f)` answers
`Size() = s` right after construction and after any sequence of `Read` calls,
whatever the helpers and `rwl.Read` do in them. `Size` returns (it does not
panic), makes no call and leaves the lease struct, `wrapped` included, and the
world as they were. -/
theorem Size_constant (gc : GetContents FL F RL RWL W) (sc : SaveContents FL F RL RWL W)
    (rd : RwlRead RWL W) (fl : FL) (s : Int) (f : F) (ps : List (List Nat))
    (w : World W RWL) :
    Size (NewAutoRefreshingReadLease fl s f w :
          autoRefreshingReadLease FL F RL × World W RWL).1 w =
        (.returned s, (NewAutoRefreshingReadLease fl s f w).1, w) ∧
      Size (readAll gc sc rd ps (NewAutoRefreshingReadLease fl s f w).1 w).1
          (readAll gc sc rd ps (NewAutoRefreshingReadLease fl s f w).1 w).2 =
        (.returned s, (readAll gc sc rd ps (NewAutoRefreshingReadLease fl s f w).1 w).1,
          (readAll gc sc rd ps (NewAutoRefreshingReadLease fl s f w).1 w).2) := by
  refine ⟨rfl, ?_⟩
  unfold Size
  rw [readAll_size]
  rfl

/-- C10: `NewAutoRefreshingReadLease(fl, s, f)` returns, for every `s` (zero
and negative included), a lease whose `wrapped` is nil and whose `size`,
`leaser` and `f` are `s`, `fl` and `f`; the world is untouched: no call is
recorded and the collaborators' state is the same. -/
theorem New_unmaterialized (fl : FL) (s : Int) (f : F) (w : World W RWL) :
    (NewAutoRefreshingReadLease fl s f w :
        autoRefreshingReadLease FL F RL × World W RWL) = (⟨s, fl, f, none⟩, w) ∧
      (NewAutoRefreshingReadLease fl s f w :
        autoRefreshingReadLease FL F RL × World W RWL).1.wrapped = none ∧
      (NewAutoRefreshingReadLease fl s f w :
        autoRefreshingReadLease FL F RL × World W RWL).2.calls = w.calls :=
  ⟨rfl, rfl, rfl⟩

/-- C2 (what the code does): with the helpers of the file, `Read` panics with
"TODO" on every lease, fresh or not, and so do `ReadAt` and `Seek`; in the
example of the specification (declared size 1024, `Read` of 100 bytes, then
`ReadAt` of 50 bytes at offset 500) both calls panic. -/
theorem regeneration_panics (rd : RwlRead RWL W) (fl : FL) (f : F)
    (rl : autoRefreshingReadLease FL F RL) (p : List Nat) (off offset whence : Int)
    (w : World W RWL) :
    (Read getContents saveContents rd rl p w).1 = .panicked "TODO" ∧
      (ReadAt rl p off w).1 = .panicked "TODO" ∧
      (Seek rl offset whence w).1 = (.panicked "TODO" : Outcome (Int × Option GoError)) ∧
      (Read getContents saveContents rd
          (NewAutoRefreshingReadLease fl 1024 f w :
            autoRefreshingReadLease FL F RL × World W RWL).1
          (List.replicate 100 0) w).1 = .panicked "TODO" ∧
      (ReadAt (NewAutoRefreshingReadLease fl 1024 f w :
            autoRefreshingReadLease FL F RL × World W RWL).1
          (List.replicate 50 0) 500 w).1 = .panicked "TODO" := by
  refine ⟨?_, rfl, rfl, rfl, rfl⟩
  unfold Read
  cases hw : rl.wrapped with
  | some h => rfl
  | none => rfl

/-- C4 (what the code does): `Revoke` and `Upgrade` panic with "TODO" and
leave the lease as it was, so they end nothing. In every state of the lease
`Read` either panics with "TODO" (a wrapped lease is present) or calls
`getContents`: no state makes it return an error without attempting
regeneration. `ReadAt` and `Seek` panic in every state. -/
theorem Revoke_Upgrade_end_nothing (gc : GetContents FL F RL RWL W)
    (sc : SaveContents FL F RL RWL W) (rd : RwlRead RWL W)
    (rl : autoRefreshingReadLease FL F RL) (p : List Nat) (off offset whence : Int)
    (w : World W RWL) :
    (Revoke rl w = (.panicked "TODO", rl, w)) ∧
      ((Upgrade rl w : Outcome (RWL × Option GoError) × _ × _) = (.panicked "TODO", rl, w)) ∧
      ((Read gc sc rd rl p w).1 = .panicked "TODO" ∨
        Call.getContents ∈ (Read gc sc rd rl p w).2.2.calls) ∧
      (ReadAt rl p off w).1 = .panicked "TODO" ∧
      (Seek rl offset whence w).1 = (.panicked "TODO" : Outcome (Int × Option GoError)) := by
  refine ⟨rfl, rfl, ?_, rfl, rfl⟩
  unfold Read
  cases hw : rl.wrapped with
  | some h => left; rfl
  | none =>
    right
    simp only [World.record, World.withExt]
    split
    · simp
    · simp
    · split <;> simp

/-- C6 (what the code does): `Revoked()` panics with "TODO" on every lease, a
freshly built one included; it returns neither `false` nor `true`. -/
theorem Revoked_panics (fl : FL) (s : Int) (f : F)
    (rl : autoRefreshingReadLease FL F RL) (w : World W RWL) :
    Revoked rl w = (.panicked "TODO", rl, w) ∧
      (Revoked (NewAutoRefreshingReadLease fl s f w :
        autoRefreshingReadLease FL F RL × World W RWL).1 w).1 ≠ .returned false := by
  refine ⟨rfl, ?_⟩
  intro h
  cases h

/-- C7 (what the code does): `getContents` of the file panics with "TODO"
without acting on the collaborators, whatever the declared size and the
supplier. `Read` on a fresh lease therefore takes the lock, calls
`getContents` once, panics and unlocks; it returns no error. -/
theorem getContents_checks_nothing (rd : RwlRead RWL W) (fl : FL) (s : Int) (f : F)
    (p : List Nat) (w : World W RWL) :
    (getContents (NewAutoRefreshingReadLease fl s f w :
          autoRefreshingReadLease FL F RL × World W RWL).1 w.ext :
        Outcome (RWL × Option GoError) × W) = (.panicked "TODO", w.ext) ∧
      Read getContents saveContents rd
          (NewAutoRefreshingReadLease fl s f w :
            autoRefreshingReadLease FL F RL × World W RWL).1 p w =
        (.panicked "TODO",
          (NewAutoRefreshingReadLease fl s f w :
            autoRefreshingReadLease FL F RL × World W RWL).1,
          ⟨w.ext, w.calls ++ [.muLock, .getContents, .muUnlock]⟩) := by
  refine ⟨rfl, ?_⟩
  simp [Read, NewAutoRefreshingReadLease, getContents, World.record, World.withExt]

end Theorems

end Lease
